import Mathlib

/-!
A shallow embedding of `src/prezmanifest/loader.py` (the `load` function and its
inner `_export` helper) together with theorems checking the natural-language
specification of the loader against this embedding.

Modelling conventions:
* RDF terms (IRIs, literals) are strings; a triple is a record of three strings.
* An rdflib `Graph` is a list of triples with set semantics: `Graph.add`
  inserts only if absent (`graphAdd`), preserving insertion order, which is
  how rdflib iteration behaves within one process.
* An rdflib `Dataset` is a list of (graph identifier, triple list) pairs.
* The filesystem is an association list from path strings to parsed file
  contents; `Graph().parse` / `load_graph` on a path is a lookup.
* Failures (`raise ValueError`, rdflib assertion failures) are modelled by a
  result type whose error case carries the state at the moment of failure,
  so that "what was already sent to the sink before the failure" is visible.
* Every call to `_export` is recorded as an `ExportEvent`, and every file
  read is recorded in a `reads` trace, in program order.
-/

namespace PrezLoad

abbrev IRI := String

structure Triple where
  s : IRI
  p : IRI
  o : IRI
deriving DecidableEq, Repr

/-- rdflib `Graph`: a set of triples, modelled as a dedup-on-add list. -/
abbrev RGraph := List Triple

/-- One named graph of an rdflib `Dataset`: (identifier, triples). -/
abbrev NamedGraph := IRI × RGraph

/-- rdflib `Dataset`: its named graphs. -/
abbrev RDataset := List NamedGraph

/-- A quad in a returned `Dataset`: a triple plus its graph identifier. -/
abbrev Quad := Triple × IRI

/-! Well-known vocabulary terms used by the loader (rdflib namespace objects). -/

def RDF_type : IRI := "http://www.w3.org/1999/02/22-rdf-syntax-ns#type"

def DCAT_Catalog : IRI := "http://www.w3.org/ns/dcat#Catalog"

def SKOS_ConceptScheme : IRI := "http://www.w3.org/2004/02/skos/core#ConceptScheme"

def SKOS_prefLabel : IRI := "http://www.w3.org/2004/02/skos/core#prefLabel"

def OWL_Ontology : IRI := "http://www.w3.org/2002/07/owl#Ontology"

def SDO_name : IRI := "https://schema.org/name"

def DCTERMS_title : IRI := "http://purl.org/dc/terms/title"

def OLIS_VirtualGraph : IRI := "https://olis.dev/VirtualGraph"

def OLIS_isAliasFor : IRI := "https://olis.dev/isAliasFor"

def OLIS_SystemGraph : IRI := "https://olis.dev/SystemGraph"

/-- `URIRef("http://background")`, loader.py line 165. -/
def backgroundIri : IRI := "http://background"

/-- rdflib's default-graph identifier `urn:x-rdflib:default`. -/
def defaultGraphId : IRI := "urn:x-rdflib:default"

/-- rdflib `Graph.add`: set insertion (a triple already present is not
duplicated). -/
def graphAdd (g : RGraph) (t : Triple) : RGraph :=
  if t ∈ g then g else g ++ [t]

/-- rdflib `Dataset.add` for one quad: set insertion. -/
def quadAdd (d : List Quad) (q : Quad) : List Quad :=
  if q ∈ d then d else d ++ [q]

/-- rdflib `graph.value(predicate=p, object=o)`: the subject of the first
matching triple, if any. -/
def value_PO (g : RGraph) (p o : IRI) : Option IRI :=
  (g.find? fun t => t.p == p && t.o == o).map (fun t => t.s)

/-- rdflib `graph.value(subject=s, predicate=p)`: the object of the first
matching triple, if any. -/
def value_SP (g : RGraph) (s p : IRI) : Option IRI :=
  (g.find? fun t => t.s == s && t.p == p).map (fun t => t.o)

/-- The resource roles of the Prez Manifest Model (`MRR` namespace). -/
inductive Role where
  | CatalogueData
  | ResourceData
  | CompleteCatalogueAndResourceLabels
  | IncompleteCatalogueAndResourceLabels
deriving DecidableEq, Repr

/-- One manifest resource: the objects of `prof:hasRole` and
`prof:hasArtifact` on it, in graph iteration order. -/
structure Resource where
  roles : List Role
  artifacts : List String
deriving DecidableEq, Repr

/-- A parsed manifest: the `prof:hasResource` objects in iteration order. -/
structure Manifest where
  resources : List Resource
deriving DecidableEq, Repr

/-- Contents of a file on disk, as the loader would parse it. -/
inductive FileContent where
  | ttl (g : RGraph)
  | trig (d : RDataset)
deriving DecidableEq, Repr

/-- The filesystem: path → parsed content. -/
abbrev FS := List (String × FileContent)

/-- `MANIFEST_ROOT_DIR / str(artifact)`: path join against the manifest
root directory. -/
def joinPath (root rel : String) : String := root ++ "/" ++ rel

def strEndsWith (s suf : String) : Bool := List.isSuffixOf suf.data s.data

def strStartsWith (s stem : String) : Bool := List.isPrefixOf stem.data s.data

def containsStar (s : String) : Bool := s.data.contains (Char.ofNat 42)

/-- Split a glob pattern at its first wildcard into the literal part before
it and the suffix after it. -/
def globSplit (pattern : String) : String × String :=
  (⟨pattern.data.takeWhile (fun ch => ch != Char.ofNat 42)⟩,
   ⟨(pattern.data.dropWhile (fun ch => ch != Char.ofNat 42)).drop 1⟩)

/-- Modelled from the spec: `get_files_from_artifact` lives in
`prezmanifest.utils`, which is not under src/; only its call sites are.
Spec 4.1: with no wildcard, the single resolved path; with exactly one
wildcard segment, split into a literal directory part and a suffix glob and
enumerate the matching files (here: the filesystem entries extending the
literal part and carrying the suffix, in filesystem order). -/
def get_files_from_artifact (fs : FS) (root : String) (pattern : String) :
    List String :=
  if containsStar pattern then
    let parts := globSplit pattern
    let stem := joinPath root parts.1
    (fs.filter fun pc => strStartsWith pc.1 stem && strEndsWith pc.1 parts.2).map
      (fun pc => pc.1)
  else
    [joinPath root pattern]

/-- The error taxonomy of the run, with the spec's names for the loader's
`raise ValueError(...)` sites and for the rdflib-level failure on an
undefined virtual-graph IRI. -/
inductive LoadError where
  | conflictingOutputTargets
  | manifestInvalid
  | missingCatalogueError
  | missingResourceIri (f : String)
  | noCatalogueError
  | artifactNotFound (p : String)
  | badReturnType
  | exportMisuse
deriving DecidableEq, Repr

/-- The three output-target parameters of `load`. -/
structure Cfg where
  sparql_endpoint : Option String
  destination_file : Option String
  return_data_type : Option String
deriving DecidableEq, Repr

/-- One call to `_export`: what was sent to the configured sink. -/
inductive ExportEvent where
  | graphExport (iri : IRI) (g : RGraph) (append : Bool)
  | datasetExport (d : RDataset)
deriving DecidableEq, Repr

/-- The mutable run state of `load`: the virtual-graph accumulator `vg`,
the current `vg_iri`, the two in-memory holders, plus the export and read
traces. -/
structure St where
  vg : RGraph
  vg_iri : Option IRI
  graphHolder : RGraph
  datasetHolder : List Quad
  exports : List ExportEvent
  reads : List String
deriving DecidableEq, Repr

def St.init : St :=
  { vg := [], vg_iri := none, graphHolder := [], datasetHolder := [],
    exports := [], reads := [] }

/-- Result of a (piece of a) run: success with the final state, or a raised
error together with the state at the moment it was raised. -/
inductive LoadRes where
  | ok (st : St)
  | error (e : LoadError) (st : St)
deriving DecidableEq, Repr

/-- The state carried by a result, whether the run succeeded or failed. -/
def stOf : LoadRes → St
  | .ok st => st
  | .error _ st => st

def resOk : LoadRes → Bool
  | .ok _ => true
  | .error _ _ => false

/-- Error-propagating fold over a list, threading the run state (the shape
of every `for` loop in `load`). -/
def foldE {α : Type} (f : St → α → LoadRes) : St → List α → LoadRes
  | st, [] => .ok st
  | st, x :: xs =>
    match f st x with
    | .ok st2 => foldE f st2 xs
    | .error e st2 => .error e st2

/-- The data argument of `_export`. -/
inductive RData where
  | graph (g : RGraph)
  | dataset (d : RDataset)
deriving DecidableEq, Repr

/-- `_export`, `Graph` branch (loader.py lines 78-101): record the send,
then write to the file / endpoint / in-memory holder selected by the
configuration. An unrecognized `return_data_type` raises. -/
def exportGraphCase (cfg : Cfg) (st : St) (g : RGraph) (iri : IRI)
    (append : Bool) : LoadRes :=
  let st := { st with exports := st.exports ++ [.graphExport iri g append] }
  match cfg.destination_file with
  | some _ => .ok st
  | none =>
    match cfg.sparql_endpoint with
    | some _ => .ok st
    | none =>
      match cfg.return_data_type with
      | some "Dataset" =>
          .ok { st with
                datasetHolder := g.foldl (fun d t => quadAdd d (t, iri)) st.datasetHolder }
      | some "Graph" =>
          .ok { st with graphHolder := g.foldl graphAdd st.graphHolder }
      | _ => .error .badReturnType st

/-- `_export`, `Dataset` branch (loader.py lines 57-76): record the send;
with a destination file the quads are written out; with a SPARQL endpoint
each contained named graph except the default one is re-exported as a
graph; otherwise (in-memory mode) the branch only returns the data to its
caller — and every call site in `load` discards that return value, so the
holders are untouched. -/
def exportDatasetCase (cfg : Cfg) (st : St) (d : RDataset) : LoadRes :=
  let st := { st with exports := st.exports ++ [.datasetExport d] }
  match cfg.destination_file with
  | some _ => .ok st
  | none =>
    match cfg.sparql_endpoint with
    | some ep =>
        foldE
          (fun st2 ng =>
            if ng.1 = defaultGraphId then .ok st2
            else exportGraphCase ⟨some ep, none, none⟩ st2 ng.2 ng.1 false)
          st d
    | none => .ok st

/-- `_export` (loader.py lines 56-101), including its two misuse checks on
the `iri` parameter. -/
def exportData (cfg : Cfg) (st : St) (data : RData) (iri : Option IRI)
    (append : Bool) : LoadRes :=
  match data with
  | .dataset d =>
    match iri with
    | some _ => .error .exportMisuse st
    | none => exportDatasetCase cfg st d
  | .graph g =>
    match iri with
    | none => .error .exportMisuse st
    | some i => exportGraphCase cfg st g i append

/-- `vg.add((vg_iri, OLIS.isAliasFor, target))` (loader.py lines 170, 179).
rdflib `Graph.add` asserts its terms are RDF nodes, so a still-undefined
(`None`) `vg_iri` makes the call fail; the spec names this failure
`NoCatalogueError`. -/
def vgAddAlias (st : St) (target : IRI) : LoadRes :=
  match st.vg_iri with
  | none => .error .noCatalogueError st
  | some v => .ok { st with vg := graphAdd st.vg ⟨v, OLIS_isAliasFor, target⟩ }

/-- Identity derivation for a non-catalogue file (loader.py lines 158-165):
for `ResourceData` the first subject typed `skos:ConceptScheme`, else the
first subject typed `owl:Ontology`; for the two label roles the fixed
background IRI. -/
def resourceIriFor (role : Role) (fg : RGraph) : Option IRI :=
  match role with
  | .ResourceData =>
      (value_PO fg RDF_type SKOS_ConceptScheme).orElse
        (fun _ => value_PO fg RDF_type OWL_Ontology)
  | _ => some backgroundIri

/-- Processing of one resolved file of a non-catalogue resource
(loader.py lines 153-180): `.ttl` files are parsed as a graph, given an
identity, alias-registered and exported; `.trig` files are parsed as a
dataset, their named graphs alias-registered, and the dataset exported;
other files are skipped. -/
def fileStep (cfg : Cfg) (fs : FS) (role : Role) (st : St) (f : String) :
    LoadRes :=
  if strEndsWith f ".ttl" then
    let st := { st with reads := st.reads ++ [f] }
    match fs.lookup f with
    | some (.ttl fg) =>
      match resourceIriFor role fg with
      | none => .error (.missingResourceIri f) st
      | some riri =>
        match vgAddAlias st riri with
        | .ok st2 => exportData cfg st2 (.graph fg) (some riri) false
        | .error e st2 => .error e st2
    | _ => .error (.artifactNotFound f) st
  else if strEndsWith f ".trig" then
    let st := { st with reads := st.reads ++ [f] }
    match fs.lookup f with
    | some (.trig d) =>
      match
        foldE
          (fun st2 ng =>
            if ng.1 = defaultGraphId then .ok st2 else vgAddAlias st2 ng.1)
          st d
      with
      | .ok st2 => exportData cfg st2 (.dataset d) none false
      | .error e st2 => .error e st2
    | _ => .error (.artifactNotFound f) st
  else
    .ok st

/-- Processing of one catalogue artifact (loader.py lines 120-141):
`load_graph` on the path joined verbatim to the manifest root (no glob
expansion, no extension filter), derivation of the virtual-graph IRI from
the first `dcat:Catalog` instance, the type / alias / name assertions into
the accumulator, and the export of the catalogue under the derived
`-catalogue` identity. -/
def catStep (cfg : Cfg) (fs : FS) (root : String) (st : St)
    (artifact : String) : LoadRes :=
  let path := joinPath root artifact
  let st := { st with reads := st.reads ++ [path] }
  match fs.lookup path with
  | some (.ttl c) =>
    match value_PO c RDF_type DCAT_Catalog with
    | none => .error .missingCatalogueError { st with vg_iri := none }
    | some v =>
      let catalogueIri := v ++ "-catalogue"
      let st := { st with vg_iri := some v }
      let st := { st with vg := graphAdd st.vg ⟨v, RDF_type, OLIS_VirtualGraph⟩ }
      let st := { st with vg := graphAdd st.vg ⟨v, OLIS_isAliasFor, catalogueIri⟩ }
      let vgName :=
        (((value_SP c v SDO_name).orElse
            (fun _ => value_SP c v DCTERMS_title)).orElse
            (fun _ => value_SP c v SKOS_prefLabel)).getD v
      let st := { st with vg := graphAdd st.vg ⟨v, SDO_name, vgName⟩ }
      exportData cfg st (.graph c) (some catalogueIri) false
  | _ => .error (.artifactNotFound path) st

def isNonCatRole (role : Role) : Bool :=
  match role with
  | .CompleteCatalogueAndResourceLabels => true
  | .IncompleteCatalogueAndResourceLabels => true
  | .ResourceData => true
  | .CatalogueData => false

/-- The non-catalogue treatment of one resource (loader.py lines 145-180):
for each of its roles in the three-role set, resolve each artifact and
process each resolved file. -/
def nonCatResourceStep (cfg : Cfg) (fs : FS) (root : String) (st : St)
    (r : Resource) : LoadRes :=
  foldE
    (fun st role =>
      if isNonCatRole role then
        foldE
          (fun st artifact =>
            foldE (fileStep cfg fs role) st
              (get_files_from_artifact fs root artifact))
          st r.artifacts
      else .ok st)
    st r.roles

/-- One iteration of the outer resource loop (loader.py lines 116-184).
Faithful to the source nesting: the catalogue section handles only the
current resource, but the non-catalogue section (line 144) re-iterates over
ALL resources, and the system-graph export (line 184) also sits inside this
outer loop. -/
def outerStep (cfg : Cfg) (fs : FS) (root : String)
    (resources : List Resource) (st : St) (r : Resource) : LoadRes :=
  match
    foldE
      (fun st role =>
        if role = Role.CatalogueData then foldE (catStep cfg fs root) st r.artifacts
        else .ok st)
      st r.roles
  with
  | .error e st2 => .error e st2
  | .ok st =>
    match foldE (nonCatResourceStep cfg fs root) st resources with
    | .error e st2 => .error e st2
    | .ok st =>
      exportData cfg st (.graph st.vg) (some OLIS_SystemGraph) true

/-- `sum(x is not None for x in [sparql_endpoint, destination_file,
return_data_type])` (loader.py line 103). -/
def countTargets (cfg : Cfg) : Nat :=
  (if cfg.sparql_endpoint.isSome then 1 else 0) +
    (if cfg.destination_file.isSome then 1 else 0) +
    (if cfg.return_data_type.isSome then 1 else 0)

/-- The `load` function (loader.py lines 38-193): output-target check,
manifest validation (the validator is the external black-box collaborator,
passed in as a predicate), the resource loops, and the final return-value
dispatch. The in-memory holders of a run live in the per-call `St.init`,
exactly as the source builds them as locals of each call. -/
def load (validator : Manifest → Bool) (fs : FS) (root : String)
    (manifest : Manifest) (cfg : Cfg) : LoadRes :=
  if countTargets cfg ≠ 1 then .error .conflictingOutputTargets St.init
  else if validator manifest then
    match foldE (outerStep cfg fs root manifest.resources) St.init
        manifest.resources with
    | .error e st2 => .error e st2
    | .ok st =>
      match cfg.return_data_type with
      | some "Dataset" => .ok st
      | some "Graph" => .ok st
      | none => .ok st
      | some _ => .error .badReturnType st
  else .error .manifestInvalid St.init

/-- Number of graph-export events sent under a given identity. -/
def graphExportCount (evs : List ExportEvent) (iri : IRI) : Nat :=
  evs.countP fun e =>
    match e with
    | .graphExport i _ _ => i == iri
    | .datasetExport _ => false

/-! Concrete scenario material shared by the theorems below. -/

/-- A catalogue file asserting one `dcat:Catalog` instance. -/
def c0ex : RGraph := [⟨"urn:cat", RDF_type, DCAT_Catalog⟩]

/-- A resource file asserting one `skos:ConceptScheme` instance. -/
def fgRex : RGraph := [⟨"urn:cs", RDF_type, SKOS_ConceptScheme⟩]

/-- Filesystem with a catalogue file and one resource file. -/
def fs12 : FS := [("r/cat.ttl", .ttl c0ex), ("r/res.ttl", .ttl fgRex)]

/-- Manifest with two resources: the catalogue and one `ResourceData`
resource. -/
def m12 : Manifest :=
  ⟨[⟨[.CatalogueData], ["cat.ttl"]⟩, ⟨[.ResourceData], ["res.ttl"]⟩]⟩

/-- In-memory Graph output configuration. -/
def cfgG : Cfg := ⟨none, none, some "Graph"⟩

/-- In-memory Dataset output configuration. -/
def cfgD : Cfg := ⟨none, none, some "Dataset"⟩

/-- The two-resource run (fresh in-memory Graph sink). -/
def run12 : LoadRes := load (fun _ => true) fs12 "r" m12 cfgG

/-- A manifest consisting of a single `CatalogueData` resource with a
single artifact. -/
def catOnlyManifest (art : String) : Manifest := ⟨[⟨[.CatalogueData], [art]⟩]⟩

/-! Disequalities between the distinct predicate constants, as simp lemmas
for the symbolic runs below. -/

@[simp] theorem type_ne_alias : RDF_type ≠ OLIS_isAliasFor := by decide

@[simp] theorem alias_ne_type : OLIS_isAliasFor ≠ RDF_type := by decide

@[simp] theorem type_ne_name : RDF_type ≠ SDO_name := by decide

@[simp] theorem name_ne_type : SDO_name ≠ RDF_type := by decide

@[simp] theorem alias_ne_name : OLIS_isAliasFor ≠ SDO_name := by decide

@[simp] theorem name_ne_alias : SDO_name ≠ OLIS_isAliasFor := by decide

/-! Helper lemmas for the symbolic runs. -/

theorem lookup_self (path : String) (v : FileContent) (rest : FS) :
    List.lookup path ((path, v) :: rest) = some v := by
  simp [List.lookup]

theorem lookup_head_ne (a k : String) (v : FileContent) (rest : FS)
    (h : (a == k) = false) :
    List.lookup a ((k, v) :: rest) = List.lookup a rest := by
  simp [List.lookup, h]

/-- The human-readable name the loader derives for the virtual graph:
first of `sdo:name`, `dcterms:title`, `skos:prefLabel` on the catalogue
subject, else the IRI string itself (loader.py lines 134-137). -/
def catVgName (c : RGraph) (S : IRI) : IRI :=
  (((value_SP c S SDO_name).orElse
      (fun _ => value_SP c S DCTERMS_title)).orElse
      (fun _ => value_SP c S SKOS_prefLabel)).getD S

/-- The virtual-graph accumulator contents right after the catalogue step:
type assertion, alias to the `-catalogue` identity, name assertion. -/
def catVg (c : RGraph) (S : IRI) : RGraph :=
  [⟨S, RDF_type, OLIS_VirtualGraph⟩,
   ⟨S, OLIS_isAliasFor, S ++ "-catalogue"⟩,
   ⟨S, SDO_name, catVgName c S⟩]

/-- Filesystem of the `MissingResourceIriError` scenario: a concrete
catalogue file plus a `ResourceData` file with arbitrary contents. -/
def fs4 (fg : RGraph) : FS :=
  [(joinPath "r" "cat.ttl", .ttl c0ex), (joinPath "r" "res.ttl", .ttl fg)]

/-- Manifest of the no-catalogue scenario: a single `ResourceData`
resource and no `CatalogueData` resource at all. -/
def m5 : Manifest := ⟨[⟨[.ResourceData], ["res.ttl"]⟩]⟩

/-- Filesystem of the no-catalogue scenario. -/
def fs5 (fg : RGraph) : FS := [(joinPath "r" "res.ttl", .ttl fg)]

/-- C1: the claim says the accumulated system graph is sent to the sink
exactly once per run, after all resources are processed. On the code this
fails: the system-graph export (loader.py line 184) sits inside the outer
resource loop (line 116), so with the two-resource manifest `m12` the run
sends the system graph twice (both times with append semantics). The
second half of the claim does hold in the sense that the resulting system
graph, being a set, carries the type assertion and the name assertion
exactly once each. -/
theorem c1_system_graph_export_count :
    graphExportCount (stOf run12).exports OLIS_SystemGraph = 2 ∧
    (stOf run12).exports.countP
      (fun e =>
        match e with
        | .graphExport i _ app => i == OLIS_SystemGraph && app
        | .datasetExport _ => false) = 2 ∧
    List.count (Triple.mk "urn:cat" RDF_type OLIS_VirtualGraph)
      (stOf run12).vg = 1 ∧
    List.count (Triple.mk "urn:cat" SDO_name "urn:cat") (stOf run12).vg = 1 ∧
    resOk run12 = true := by decide

/-- C2: the claim says each non-catalogue resource's graph is dispatched to
the sink exactly once per run. On the code this fails: the non-catalogue
loop (loader.py line 144) re-iterates over all resources inside the outer
resource loop, so with the two-resource manifest `m12` the `ResourceData`
file is read twice and its graph is exported twice. -/
theorem c2_resource_graph_export_count :
    (stOf run12).exports.countP
      (fun e => e == .graphExport "urn:cs" fgRex false) = 2 ∧
    (stOf run12).reads = ["r/cat.ttl", "r/res.ttl", "r/res.ttl"] ∧
    resOk run12 = true := by decide

/-- C7: with more than one, or none, of the three output targets set, `load`
fails with `ConflictingOutputTargets` immediately: the result is the error
with the untouched initial state (nothing read, nothing exported), for every
validator, filesystem and manifest — the check precedes validation and all
artifact access. -/
theorem c7_conflicting_output_targets (validator : Manifest → Bool) (fs : FS)
    (root : String) (manifest : Manifest) (cfg : Cfg)
    (h : countTargets cfg ≠ 1) :
    load validator fs root manifest cfg =
      .error .conflictingOutputTargets St.init := by
  unfold load
  rw [if_pos h]

theorem c7_witness :
    countTargets ⟨none, none, none⟩ ≠ 1 ∧
    load (fun _ => true) fs12 "r" m12 ⟨none, none, none⟩ =
      .error .conflictingOutputTargets St.init :=
  ⟨by decide,
   c7_conflicting_output_targets (fun _ => true) fs12 "r" m12 _ (by decide)⟩

/-- C8: `load` is deterministic — two runs on the same manifest and
filesystem, each against the fresh per-call in-memory sink (the source
builds its holders as locals of each call; here `St.init`), return the same
triple sets, indeed the same state. -/
theorem c8_two_runs_identical (validator : Manifest → Bool) (fs : FS)
    (root : String) (manifest : Manifest) (cfg : Cfg) (st1 st2 : St)
    (h1 : load validator fs root manifest cfg = .ok st1)
    (h2 : load validator fs root manifest cfg = .ok st2) :
    st1.graphHolder = st2.graphHolder ∧
      st1.datasetHolder = st2.datasetHolder ∧ st1 = st2 := by
  have h := h1.symm.trans h2
  injection h with h
  subst h
  exact ⟨rfl, rfl, rfl⟩

/-- Dataset parsed from a quad-document artifact: one named graph. -/
def trigEx : RDataset := [("urn:g1", [⟨"urn:a", "urn:b", "urn:c"⟩])]

/-- Filesystem with the catalogue file and one `.trig` artifact. -/
def fs9 : FS := [("r/cat.ttl", .ttl c0ex), ("r/data.trig", .trig trigEx)]

/-- Manifest with the catalogue and a resource whose artifact is the
quad-document file. -/
def m9 : Manifest :=
  ⟨[⟨[.CatalogueData], ["cat.ttl"]⟩, ⟨[.ResourceData], ["data.trig"]⟩]⟩

def run9G : LoadRes := load (fun _ => true) fs9 "r" m9 cfgG

def run9D : LoadRes := load (fun _ => true) fs9 "r" m9 cfgD

/-- C9: in the in-memory return modes, the data of a `.trig` artifact never
reaches the returned Graph or Dataset: the `Dataset` branch of `_export`
merely returns the data, and every call site in `load` discards that return
value, so the holders are untouched (first conjunct, for any state, dataset
and return type). In the concrete runs the quad-document triple is absent
from both holders, yet its named graph is still alias-registered in the
system graph. -/
theorem c9_trig_data_discarded :
    (∀ (st : St) (d : RDataset) (rdt : Option String),
        exportDatasetCase ⟨none, none, rdt⟩ st d =
          .ok { st with exports := st.exports ++ [.datasetExport d] }) ∧
    resOk run9G = true ∧
    Triple.mk "urn:a" "urn:b" "urn:c" ∉ (stOf run9G).graphHolder ∧
    (Triple.mk "urn:a" "urn:b" "urn:c", "urn:g1") ∉ (stOf run9D).datasetHolder ∧
    .datasetExport trigEx ∈ (stOf run9G).exports ∧
    Triple.mk "urn:cat" OLIS_isAliasFor "urn:g1" ∈ (stOf run9G).vg ∧
    .graphExport OLIS_SystemGraph (stOf run9G).vg true ∈ (stOf run9G).exports :=
  ⟨fun _ _ _ => rfl, by decide⟩

theorem c8_witness :
    (stOf run12).graphHolder = (stOf run12).graphHolder ∧
      (stOf run12).datasetHolder = (stOf run12).datasetHolder ∧
      stOf run12 = stOf run12 :=
  c8_two_runs_identical (fun _ => true) fs12 "r" m12 cfgG
    (stOf run12) (stOf run12) (by decide) (by decide)

/-- C3: for a manifest whose single `CatalogueData` artifact has `S` as its
first `dcat:Catalog` instance, the run succeeds with virtual-graph IRI `S`,
the catalogue graph is exported under `S ++ "-catalogue"`, and the system
graph (exported as the final state's `vg`) contains the type assertion on
`S` and the alias from `S` to the `-catalogue` identity. -/
theorem c3_catalogue_identity_and_system_graph (c : RGraph)
    (S root art : String)
    (h : value_PO c RDF_type DCAT_Catalog = some S) :
    (load (fun _ => true) [(joinPath root art, .ttl c)] root
        (catOnlyManifest art) cfgG =
      .ok { vg := catVg c S, vg_iri := some S,
            graphHolder := (catVg c S).foldl graphAdd (c.foldl graphAdd []),
            datasetHolder := [],
            exports := [.graphExport (S ++ "-catalogue") c false,
                        .graphExport OLIS_SystemGraph (catVg c S) true],
            reads := [joinPath root art] }) ∧
    Triple.mk S RDF_type OLIS_VirtualGraph ∈ catVg c S ∧
    Triple.mk S OLIS_isAliasFor (S ++ "-catalogue") ∈ catVg c S := by
  refine ⟨?_, by simp [catVg], by simp [catVg]⟩
  unfold load
  rw [if_neg (by decide : ¬ (countTargets cfgG ≠ 1))]
  simp only [catOnlyManifest, foldE, outerStep, catStep, nonCatResourceStep,
    isNonCatRole, exportData, exportGraphCase, lookup_self, h, if_true,
    reduceIte]
  simp [St.init, catVg, catVgName, graphAdd, cfgG, Triple.mk.injEq]

theorem c3_witness :
    value_PO c0ex RDF_type DCAT_Catalog = some "urn:cat" ∧
    Triple.mk "urn:cat" RDF_type OLIS_VirtualGraph ∈ catVg c0ex "urn:cat" :=
  ⟨by decide,
   (c3_catalogue_identity_and_system_graph c0ex "urn:cat" "r" "cat.ttl"
      (by decide)).2.1⟩

/-- C4: identity derivation for a `ResourceData` file: a
`skos:ConceptScheme` subject wins, else an `owl:Ontology` subject; with
neither present the run aborts with `MissingResourceIriError` at that file
and the error state shows that the only export so far is the catalogue —
no triple of the offending file was sent to the sink. -/
theorem c4_resource_identity_and_missing_iri (fg : RGraph) :
    (∀ X : IRI, value_PO fg RDF_type SKOS_ConceptScheme = some X →
        resourceIriFor .ResourceData fg = some X) ∧
    (∀ Y : IRI, value_PO fg RDF_type SKOS_ConceptScheme = none →
        value_PO fg RDF_type OWL_Ontology = some Y →
        resourceIriFor .ResourceData fg = some Y) ∧
    (value_PO fg RDF_type SKOS_ConceptScheme = none →
      value_PO fg RDF_type OWL_Ontology = none →
      load (fun _ => true) (fs4 fg) "r" m12 cfgG =
        .error (.missingResourceIri (joinPath "r" "res.ttl"))
          { vg := catVg c0ex "urn:cat", vg_iri := some "urn:cat",
            graphHolder := c0ex, datasetHolder := [],
            exports := [.graphExport "urn:cat-catalogue" c0ex false],
            reads := [joinPath "r" "cat.ttl", joinPath "r" "res.ttl"] }) := by
  refine ⟨fun X hX => by simp [resourceIriFor, hX, Option.orElse],
          fun Y h1 h2 => by simp [resourceIriFor, h1, h2, Option.orElse],
          fun h1 h2 => ?_⟩
  have hv : value_PO c0ex RDF_type DCAT_Catalog = some "urn:cat" := by decide
  have hends : strEndsWith (joinPath "r" "res.ttl") ".ttl" = true := by decide
  have hstar : containsStar "res.ttl" = false := by decide
  have hne : ((joinPath "r" "res.ttl" : String) == joinPath "r" "cat.ttl") =
      false := by decide
  unfold load
  rw [if_neg (by decide : ¬ (countTargets cfgG ≠ 1))]
  simp only [m12, fs4, foldE, outerStep, catStep, nonCatResourceStep,
    isNonCatRole, fileStep, exportData, exportGraphCase,
    get_files_from_artifact, cfgG, resourceIriFor, lookup_self, hv, hends,
    hstar, lookup_head_ne _ _ _ _ hne, h1, h2, if_true, reduceIte,
    Option.orElse, Bool.false_eq_true]
  decide

theorem c4_witness :
    load (fun _ => true) (fs4 []) "r" m12 cfgG =
      .error (.missingResourceIri (joinPath "r" "res.ttl"))
        { vg := catVg c0ex "urn:cat", vg_iri := some "urn:cat",
          graphHolder := c0ex, datasetHolder := [],
          exports := [.graphExport "urn:cat-catalogue" c0ex false],
          reads := [joinPath "r" "cat.ttl", joinPath "r" "res.ttl"] } :=
  (c4_resource_identity_and_missing_iri []).2.2 rfl rfl

/-- C5: with no `CatalogueData` resource, `vg_iri` stays undefined and any
alias registration fails fast with `NoCatalogueError` (first conjunct: for
every state with an undefined virtual-graph IRI). In the concrete
no-catalogue run the failure happens before any alias triple or export is
produced: the error state has an empty accumulator and an empty export
trace. -/
theorem c5_no_catalogue_alias_fails :
    (∀ (st : St) (target : IRI), st.vg_iri = none →
        vgAddAlias st target = .error .noCatalogueError st) ∧
    (∀ (fg : RGraph) (X : IRI),
        value_PO fg RDF_type SKOS_ConceptScheme = some X →
        load (fun _ => true) (fs5 fg) "r" m5 cfgG =
          .error .noCatalogueError
            ⟨[], none, [], [], [], [joinPath "r" "res.ttl"]⟩) := by
  refine ⟨fun st target h => by simp [vgAddAlias, h], fun fg X h => ?_⟩
  have hends : strEndsWith (joinPath "r" "res.ttl") ".ttl" = true := by decide
  have hstar : containsStar "res.ttl" = false := by decide
  unfold load
  rw [if_neg (by decide : ¬ (countTargets cfgG ≠ 1))]
  simp only [m5, fs5, foldE, outerStep, catStep, nonCatResourceStep,
    isNonCatRole, fileStep, exportData, exportGraphCase,
    get_files_from_artifact, cfgG, resourceIriFor, vgAddAlias, lookup_self,
    St.init, hends, hstar, h, if_true, reduceIte, reduceCtorEq, Option.orElse,
    Bool.false_eq_true]
  decide

theorem c5_witness :
    value_PO fgRex RDF_type SKOS_ConceptScheme = some "urn:cs" ∧
    load (fun _ => true) (fs5 fgRex) "r" m5 cfgG =
      .error .noCatalogueError
        ⟨[], none, [], [], [], [joinPath "r" "res.ttl"]⟩ :=
  ⟨by decide, c5_no_catalogue_alias_fails.2 fgRex "urn:cs" (by decide)⟩

/-- C6: a `CatalogueData` artifact without a `dcat:Catalog` instance makes
the run fail with `MissingCatalogueError`, with an empty export trace: the
catalogue graph was never sent to any sink. -/
theorem c6_missing_catalogue_aborts (c : RGraph) (root art : String)
    (h : value_PO c RDF_type DCAT_Catalog = none) :
    load (fun _ => true) [(joinPath root art, .ttl c)] root
        (catOnlyManifest art) cfgG =
      .error .missingCatalogueError
        { St.init with reads := [joinPath root art] } := by
  unfold load
  rw [if_neg (by decide : ¬ (countTargets cfgG ≠ 1))]
  simp only [catOnlyManifest, foldE, outerStep, catStep, lookup_self, h,
    if_true, reduceIte]
  simp [St.init]

theorem c6_witness :
    load (fun _ => true) [(joinPath "r" "cat.ttl", .ttl [])] "r"
        (catOnlyManifest "cat.ttl") cfgG =
      .error .missingCatalogueError
        { St.init with reads := [joinPath "r" "cat.ttl"] } :=
  c6_missing_catalogue_aborts [] "r" "cat.ttl" rfl

/-- Catalogue file at the literal wildcard-containing path. -/
def cW : RGraph := [⟨"urn:catA", RDF_type, DCAT_Catalog⟩]

/-- Catalogue file at the path the glob would match. -/
def cM : RGraph := [⟨"urn:catB", RDF_type, DCAT_Catalog⟩]

/-- Filesystem holding both the literal `cat*.ttl` file and a glob-matching
`cat1.ttl` file. -/
def fs10 : FS :=
  [(joinPath "r" "cat*.ttl", .ttl cW), (joinPath "r" "cat1.ttl", .ttl cM)]

/-- The catalogue run whose single artifact contains a wildcard. -/
def run10 : LoadRes :=
  load (fun _ => true) fs10 "r" (catOnlyManifest "cat*.ttl") cfgG

/-- C10: a `CatalogueData` artifact is used verbatim — for every filesystem,
root and artifact string, the catalogue-only run reads exactly the path
joined against the manifest root (no glob expansion, no extension filter,
first conjunct). In the concrete wildcard scenario the glob resolver would
enumerate two files, yet the run reads only the literal `cat*.ttl` path and
exports that file's catalogue, not the glob-matched one. -/
theorem c10_catalogue_artifact_verbatim :
    (∀ (fs : FS) (root art : String),
        (stOf (load (fun _ => true) fs root (catOnlyManifest art) cfgG)).reads =
          [joinPath root art]) ∧
    get_files_from_artifact fs10 "r" "cat*.ttl" =
      [joinPath "r" "cat*.ttl", joinPath "r" "cat1.ttl"] ∧
    (stOf run10).reads = [joinPath "r" "cat*.ttl"] ∧
    .graphExport ("urn:catA" ++ "-catalogue") cW false ∈ (stOf run10).exports ∧
    resOk run10 = true := by
  refine ⟨fun fs root art => ?_, by decide, by decide, by decide, by decide⟩
  unfold load
  rw [if_neg (by decide : ¬ (countTargets cfgG ≠ 1))]
  simp only [catOnlyManifest, foldE, outerStep, catStep]
  cases hfs : List.lookup (joinPath root art) fs with
  | none => simp [hfs, St.init, stOf]
  | some fc =>
    cases fc with
    | trig d => simp [hfs, St.init, stOf]
    | ttl c =>
      cases hv : value_PO c RDF_type DCAT_Catalog with
      | none => simp [hfs, hv, St.init, stOf]
      | some v =>
        simp [hfs, hv, St.init, stOf, exportData, exportGraphCase,
          nonCatResourceStep, foldE, isNonCatRole, cfgG]

end PrezLoad
